import Mathlib

/-!
Shallow embedding of the Email-Generator service (Express route
`POST /api/email/generate` plus the Gemini service module) for checking the
natural-language specification against the code.

Modelling conventions:
* JavaScript values relevant to the pipeline are modelled by `JSVal`
  (strings, numbers, booleans, `null`, `undefined`); JS truthiness by `truthy`.
* Strings are Lean `String`s (lists of characters).  All inputs appearing in
  the claims are BMP text, where JavaScript's UTF-16 `length`/`slice` agree
  with character counts.
* The two remote Gemini calls are opaque collaborators.  Their observable
  effect on the code is captured by `ExtractOutcome` (the extraction call
  either throws somewhere inside the `try` — network error, malformed JSON —
  or produces a parsed object whose four properties are arbitrary JS values)
  and `GenOutcome` (likewise for the generation call, with properties
  `subject` and `body`).  `generateEmail` is a pure function of its input and
  these two outcomes.
* A thrown `TypeError` (property access on `null`) is modelled by
  `Except.error JsError.typeError`.
-/

set_option maxRecDepth 100000

namespace EmailGen

/-- A JavaScript value, restricted to the primitives the pipeline handles. -/
inductive JSVal where
  | vStr (s : String)
  | vNum (n : Int)
  | vBool (b : Bool)
  | vNull
  | vUndef
deriving DecidableEq

/-- JavaScript truthiness for `JSVal`. -/
def truthy : JSVal → Bool
  | .vStr s => s != ""
  | .vNum n => n != 0
  | .vBool b => b
  | .vNull => false
  | .vUndef => false

/-- `a || b` on JS values. -/
def jsOr (a b : JSVal) : JSVal := if truthy a then a else b

/-- The characters matched by the regex class `\s` (ASCII part; the inputs in
the claims contain no Unicode space separators). -/
def jsWs (c : Char) : Bool :=
  c == ' ' || c == '\t' || c == '\n' || c == '\r' || c == '\x0b' || c == '\x0c'

/-- One pass of `.replace(/\s+/g, " ")`: every maximal whitespace run becomes
a single space.  The flag records whether the previous character was
whitespace. -/
def collapseGo : Bool → List Char → List Char
  | _, [] => []
  | prevWs, c :: rest =>
    if jsWs c then
      if prevWs then collapseGo true rest else ' ' :: collapseGo true rest
    else c :: collapseGo false rest

/-- `s.replace(/\s+/g, " ")`. -/
def collapseWs (s : String) : String := String.mk (collapseGo false s.data)

/-- `l` with leading and trailing whitespace removed. -/
def trimL (l : List Char) : List Char :=
  ((l.dropWhile jsWs).reverse.dropWhile jsWs).reverse

/-- JavaScript `String.prototype.trim()`. -/
def jsTrim (s : String) : String := String.mk (trimL s.data)

/-- `s.replace(/\s+/g, " ").trim()`, the string branch of `sanitizeText`. -/
def sanitizeStr (s : String) : String := jsTrim (collapseWs s)

/-- `sanitizeText(s, fallback)` from the service module: non-strings give the
fallback, strings are whitespace-collapsed and trimmed. -/
def sanitizeText (v : JSVal) (fallback : String) : String :=
  match v with
  | .vStr s => sanitizeStr s
  | _ => fallback

/-- `.replace(/\r\n/g, "\n")`. -/
def stripCR : List Char → List Char
  | [] => []
  | '\r' :: '\n' :: rest => '\n' :: stripCR rest
  | c :: rest => c :: stripCR rest

/-- `toPlainMultiline` from the service module, on the (already
type-checked) string body: normalize CRLF to LF and trim. -/
def toPlainMultiline (s : String) : String := jsTrim (String.mk (stripCR s.data))

/-- `company.toLowerCase().replace(/\s+/g, "")`. -/
def stripLower (s : String) : String :=
  String.mk ((s.data.map Char.toLower).filter (fun c => !jsWs c))

/-- `deriveHrEmail(company)` from the service module. -/
def deriveHrEmail (company : JSVal) : String :=
  match company with
  | .vStr s => if s = "" then "hr@company.com" else "hr@" ++ stripLower s ++ ".com"
  | _ => "hr@company.com"

/-- A JavaScript object as far as `generateEmail` reads it: the eleven
context properties plus `rawText`.  A property the caller did not set is
`undefined`. -/
structure InObj where
  rawText : JSVal := .vUndef
  name : JSVal := .vUndef
  userEmail : JSVal := .vUndef
  userPhone : JSVal := .vUndef
  hrName : JSVal := .vUndef
  hrEmail : JSVal := .vUndef
  jobRole : JSVal := .vUndef
  company : JSVal := .vUndef
  companyPhone : JSVal := .vUndef
  education : JSVal := .vUndef
  skills : JSVal := .vUndef
  location : JSVal := .vUndef
deriving DecidableEq

/-- The argument of `generateEmail(input)`: a string, an object, `null` or
`undefined`. -/
inductive GenInput where
  | jstr (s : String)
  | jobj (o : InObj)
  | jnull
  | jundef
deriving DecidableEq

/-- The only runtime exception the embedded code can raise itself:
`input.rawText` on `null` (and `userInput.match` on a non-string) throw a
`TypeError`. -/
inductive JsError where
  | typeError
deriving DecidableEq

/-- The eleven local variables of `generateEmail` after the destructuring
`let { name, ..., location = "Bangalore, India" } = ...`. -/
structure Vars where
  name : JSVal
  userEmail : JSVal
  userPhone : JSVal
  hrName : JSVal
  hrEmail : JSVal
  jobRole : JSVal
  company : JSVal
  companyPhone : JSVal
  education : JSVal
  skills : JSVal
  location : JSVal
deriving DecidableEq

/-- A destructuring default: applied exactly when the property is
`undefined`. -/
def withDefault (v : JSVal) (d : String) : JSVal :=
  match v with
  | .vUndef => .vStr d
  | _ => v

/-- Destructure an object into the eleven variables, applying the four
destructuring defaults of the source. -/
def destructureObj (o : InObj) : Vars where
  name := o.name
  userEmail := o.userEmail
  userPhone := o.userPhone
  hrName := withDefault o.hrName "HR Manager"
  hrEmail := o.hrEmail
  jobRole := o.jobRole
  company := o.company
  companyPhone := o.companyPhone
  education := withDefault o.education "B.Tech in Computer Science"
  skills := withDefault o.skills "Java, Python, JavaScript, React, and Node.js"
  location := withDefault o.location "Bangalore, India"

/-- The empty object `{}`. -/
def emptyObj : InObj := {}

/-- `typeof input === "object" && !input.rawText ? input : (input || {})`,
then destructure.  For `null`, `typeof null === "object"` holds and
`null.rawText` throws a `TypeError`.  For an object both branches yield the
object itself (objects are truthy); for a string or `undefined` all twelve
properties read as `undefined`, so destructuring behaves like `{}`. -/
def destructure : GenInput → Except JsError Vars
  | .jnull => .error .typeError
  | .jobj o => .ok (destructureObj o)
  | .jstr _ => .ok (destructureObj emptyObj)
  | .jundef => .ok (destructureObj emptyObj)

/-- The guard of step 1:
`typeof input === "string" || (input && input.rawText)`. -/
def rawBranch : GenInput → Bool
  | .jstr _ => true
  | .jobj o => truthy o.rawText
  | .jnull => false
  | .jundef => false

/-- Observable outcome of the extraction call: either something inside the
`try` threw (network error, malformed JSON — the brace-slice `JSON.parse`
included), or a parsed value was obtained whose four properties are the given
JS values (`undefined` when missing, as for the `{}` produced when the
response text has no braces). -/
inductive ExtractOutcome where
  | err
  | ok (name jobRole company location : JSVal)
deriving DecidableEq

/-- Observable outcome of the generation call, analogously: a throw inside
the `try`, or a parsed value with `subject` and `body` properties. -/
inductive GenOutcome where
  | err
  | ok (subject body : JSVal)
deriving DecidableEq

/-- Step 1 of `generateEmail`: on extraction success the four fields are
overwritten with sanitized extracted values; on any extraction failure the
`catch` runs `name ||= "Candidate"` and so on, assigning only to falsy
variables. -/
def applyExtraction (vars : Vars) (ext : ExtractOutcome) : Vars :=
  match ext with
  | .ok n j c l =>
    { vars with
      name := .vStr (sanitizeText n "Candidate")
      jobRole := .vStr (sanitizeText j "Software Engineer")
      company := .vStr (sanitizeText c "the company")
      location := .vStr (sanitizeText l "India") }
  | .err =>
    { vars with
      name := jsOr vars.name (.vStr "Candidate")
      jobRole := jsOr vars.jobRole (.vStr "Software Engineer")
      company := jsOr vars.company (.vStr "the company")
      location := jsOr vars.location (.vStr "India") }

/-- The variables reaching step 2, as a function of the input and of the
extraction outcome (the extraction call runs only on the raw-text branch). -/
def resolveVars (input : GenInput) (ext : ExtractOutcome) : Except JsError Vars :=
  match destructure input with
  | .error e => .error e
  | .ok vars => .ok (if rawBranch input then applyExtraction vars ext else vars)

/-- The eleven `safe*` variables of step 2 — the sanitized context used to
build the generation prompt and the fallback email. -/
structure SafeCtx where
  hrEmail : String := ""
  userEmail : String := ""
  userPhone : String := ""
  company : String := ""
  hrName : String := ""
  name : String := ""
  jobRole : String := ""
  location : String := ""
  education : String := ""
  skills : String := ""
  companyPhone : String := ""
deriving DecidableEq

/-- Step 2 of `generateEmail`: each variable through `sanitizeText` with its
per-field fallback; the HR email from `hrEmail || deriveHrEmail(company)`. -/
def makeSafe (v : Vars) : SafeCtx where
  hrEmail := sanitizeText (jsOr v.hrEmail (.vStr (deriveHrEmail v.company))) "hr@company.com"
  userEmail := sanitizeText v.userEmail "example@email.com"
  userPhone := sanitizeText v.userPhone "+91-XXXXXXXXXX"
  company := sanitizeText v.company "the company"
  hrName := sanitizeText v.hrName "HR Manager"
  name := sanitizeText v.name "Candidate"
  jobRole := sanitizeText v.jobRole "Software Engineer"
  location := sanitizeText v.location "India"
  education := sanitizeText v.education "B.Tech in Computer Science"
  skills := sanitizeText v.skills "Java, Python, JavaScript, React, and Node.js"
  companyPhone := sanitizeText v.companyPhone "N/A"

/-- The `{ subject, body }` pair returned by `generateEmail`. -/
structure GeneratedEmail where
  subject : String
  body : String
deriving DecidableEq

/-- `s.slice(0, n)`. -/
def strTake (s : String) (n : Nat) : String := String.mk (s.data.take n)

/-- Step 5 of `generateEmail`: the deterministic fallback template, a pure
function of the sanitized context. -/
def fallbackEmail (c : SafeCtx) : GeneratedEmail where
  subject := "Application for " ++ c.jobRole ++ " – " ++ c.name
  body :=
    "Dear " ++ c.hrName ++ ",\n\n" ++
    "I am writing to formally express my interest in the " ++ c.jobRole ++
    " position at " ++ c.company ++ ". With a strong academic background in " ++
    c.education ++ " and comprehensive experience in " ++ c.skills ++
    ", I am eager to contribute to your esteemed organization and align my professional aspirations with your company’s values.\n\n" ++
    "Throughout my academic and project work, I have consistently demonstrated dedication, resourcefulness, and adaptability, attributes which I am confident will enable me to add value to your team. My technical proficiency and commitment to continuous improvement position me as a strong candidate for this role.\n\n" ++
    "I would appreciate the opportunity to further discuss my qualifications and how they align with your requirements. Thank you for considering my application. I look forward to the possibility of contributing to " ++
    c.company ++ ".\n\n" ++
    "Sincerely,\n" ++ c.name ++ "\n" ++ c.location ++ "\nEmail: " ++ c.userEmail ++
    "\nPhone: " ++ c.userPhone

/-- Steps 4–5 of `generateEmail`: on a generation result whose `subject` and
`body` are both strings, sanitize and cap the subject and normalize the
body; on any other outcome (a throw, or the `Invalid response JSON` check)
fall back to the template. -/
def composeResult (ctx : SafeCtx) (gen : GenOutcome) : GeneratedEmail :=
  match gen with
  | .ok (.vStr s0) (.vStr b0) =>
    let subject := sanitizeText (.vStr s0)
      ("Application for " ++ ctx.jobRole ++ " – " ++ ctx.name)
    { subject := if 90 < subject.length then jsTrim (strTake subject 87) ++ "..." else subject
      body := toPlainMultiline b0 }
  | _ => fallbackEmail ctx

/-- `generateEmail(input)` as a function of the input and of the outcomes of
the two external calls. -/
def generateEmail (input : GenInput) (ext : ExtractOutcome) (gen : GenOutcome) :
    Except JsError GeneratedEmail :=
  match resolveVars input ext with
  | .error e => .error e
  | .ok vars => .ok (composeResult (makeSafe vars) gen)

/-- Does this generation outcome take the fallback path?  (`true` exactly
when the `try` of step 4 ends in the `catch`.) -/
def genFails : GenOutcome → Bool
  | .err => true
  | .ok (.vStr _) (.vStr _) => false
  | .ok _ _ => true

/-!  The route `POST /api/email/generate` (`emailRoutes.js`). -/

/-- The JSON request body as far as the route reads it: the structured field
names plus `input`. -/
structure ReqObj where
  input : JSVal := .vUndef
  name : JSVal := .vUndef
  hrName : JSVal := .vUndef
  hrEmail : JSVal := .vUndef
  jobRole : JSVal := .vUndef
  company : JSVal := .vUndef
  companyPhone : JSVal := .vUndef
  userEmail : JSVal := .vUndef
  userPhone : JSVal := .vUndef
  education : JSVal := .vUndef
  skills : JSVal := .vUndef
  location : JSVal := .vUndef
deriving DecidableEq

/-- A request body: either a JSON string or a JSON object. -/
inductive ReqBody where
  | rstr (s : String)
  | robj (o : ReqObj)
deriving DecidableEq

/-- The alternatives of the role regex
`/(developer|engineer|designer|manager|intern|analyst)/i`, in source
order. -/
def roleKeywords : List (List Char) :=
  ["developer".data, "engineer".data, "designer".data, "manager".data,
   "intern".data, "analyst".data]

/-- Case-insensitive comparison of the start of `text` against a keyword. -/
def kwAt (text kw : List Char) : Bool :=
  (text.take kw.length).map Char.toLower == kw

/-- Leftmost match of the role regex: the first position at which one of the
alternatives matches; `match[0]` keeps the original casing. -/
def findRole : List Char → Option (List Char)
  | [] => none
  | c :: rest =>
    match roleKeywords.find? (fun kw => kwAt (c :: rest) kw) with
    | some kw => some ((c :: rest).take kw.length)
    | none => findRole rest

/-- The character class `[A-Za-z0-9\s&]` of the company regex. -/
def classChar (c : Char) : Bool :=
  ('A' ≤ c && c ≤ 'Z') || ('a' ≤ c && c ≤ 'z') || ('0' ≤ c && c ≤ '9') ||
    jsWs c || c == '&'

/-- Attempt of the company regex `/at\s+([A-Za-z0-9\s&]+)/i` at one
position: `a`/`A` then `t`/`T`, a greedy whitespace run, then the greedy
class run as the capture.  When the class run after the whitespace is empty
the engine backtracks `\s+` by one, making the last whitespace character the
capture (possible only when the run has at least two characters). -/
def companyAt : List Char → Option (List Char)
  | a :: t :: rest =>
    if (a == 'a' || a == 'A') && (t == 't' || t == 'T') then
      let w := rest.takeWhile jsWs
      if w.length == 0 then none
      else
        let cls := (rest.drop w.length).takeWhile classChar
        if cls.length != 0 then some cls
        else if 2 ≤ w.length then some (w.reverse.take 1)
        else none
    else none
  | _ => none

/-- Leftmost match of the company regex; returns the capture group. -/
def findCompany : List Char → Option (List Char)
  | [] => none
  | c :: rest =>
    match companyAt (c :: rest) with
    | some cap => some cap
    | none => findCompany rest

/-- The free-text branch of the route: regex extraction of role and company,
fixed values for the other fields. -/
def normalizeFreeText (userInput : String) : InObj :=
  let jobRole : String :=
    match findRole userInput.data with
    | some m => String.mk m
    | none => "Software Engineer"
  let company : String :=
    match findCompany userInput.data with
    | some cap => jsTrim (String.mk cap)
    | none => "the company"
  { name := .vStr "Candidate"
    hrEmail := .vStr "hr@company.com"
    jobRole := .vStr jobRole
    company := .vStr company
    education := .vStr "B.Tech in Computer Science"
    skills := .vStr "React, Node.js, and modern web development"
    location := .vStr "India" }

/-- The structured branch of the route: `body.field || default` for each
field. -/
def normalizeStructured (b : ReqObj) : InObj :=
  { name := jsOr b.name (.vStr "Candidate")
    hrName := jsOr b.hrName (.vStr "HR")
    hrEmail := jsOr b.hrEmail (.vStr "hr@company.com")
    jobRole := jsOr b.jobRole (.vStr "Software Engineer")
    company := jsOr b.company (.vStr "the company")
    companyPhone := jsOr b.companyPhone (.vStr "")
    userEmail := jsOr b.userEmail (.vStr "candidate@email.com")
    userPhone := jsOr b.userPhone (.vStr "")
    education := jsOr b.education (.vStr "B.Tech in Computer Science")
    skills := jsOr b.skills (.vStr "JavaScript, React, Node.js")
    location := jsOr b.location (.vStr "India") }

/-- The route's dispatch `typeof body === "string" || body.input`.  A string
body reads its own `input` property as `undefined`, so `body.input || body`
is the body itself.  A truthy non-string `body.input` reaches
`userInput.match(...)`, which throws a `TypeError` and surfaces as the 500
branch. -/
def normalizeRequest : ReqBody → Except JsError InObj
  | .rstr s => .ok (normalizeFreeText s)
  | .robj o =>
    if truthy o.input then
      match o.input with
      | .vStr s => .ok (normalizeFreeText s)
      | _ => .error .typeError
    else .ok (normalizeStructured o)

/-- The 200 response payload: `{ success: true, parsedInput, generated }`. -/
structure Response where
  parsedInput : InObj
  generated : GeneratedEmail
deriving DecidableEq

/-- The whole handler: normalize the body, run `generateEmail`, answer with
`parsedInput` and `generated`; an error becomes the 500 branch. -/
def handleGenerate (b : ReqBody) (ext : ExtractOutcome) (gen : GenOutcome) :
    Except JsError Response :=
  match normalizeRequest b with
  | .error e => .error e
  | .ok inputData =>
    match generateEmail (.jobj inputData) ext gen with
    | .error e => .error e
    | .ok r => .ok { parsedInput := inputData, generated := r }

/-!  Observation helpers. -/

/-- `pat` starts `l`. -/
def startsWithL : List Char → List Char → Bool
  | [], _ => true
  | _ :: _, [] => false
  | a :: as, b :: bs => a == b && startsWithL as bs

/-- `pat` occurs somewhere in `l`. -/
def hasSubL (pat : List Char) : List Char → Bool
  | [] => startsWithL pat []
  | c :: rest => startsWithL pat (c :: rest) || hasSubL pat rest

/-- `pat` is a substring of `s`. -/
def containsSub (pat s : String) : Bool := hasSubL pat.data s.data

/-- ASCII lowercasing, to state "equal up to casing". -/
def lowerStr (s : String) : String := String.mk (s.data.map Char.toLower)

/-!  Concrete inputs used by witnesses and counterexamples. -/

/-- A 95-character model subject with no whitespace. -/
def subj95 : String := String.mk (List.replicate 95 'a')

/-- A sanitized 95-character model subject whose 87th character is a space,
so that `slice(0, 87).trim()` drops one character. -/
def subj95sp : String := String.mk (List.replicate 86 'a' ++ ' ' :: List.replicate 8 'b')

/-- A structured input whose job role is 100 characters long. -/
def longRoleObj : InObj := { jobRole := .vStr (String.mk (List.replicate 100 'a')) }

/-- The request body of the spec's structured end-to-end scenario. -/
def ashaReq : ReqObj :=
  { name := .vStr "Asha", jobRole := .vStr "Backend Developer",
    company := .vStr "Acme", userEmail := .vStr "asha@x.com" }

/-- The request body of the spec's free-text end-to-end scenario. -/
def initechReq : ReqObj := { input := .vStr "Apply for backend developer at Initech" }

/-- The eleven variables of `generateEmail` for a raw-string input whose
extraction call failed: the four destructuring defaults, then the `catch`
block's `||=` assignments. -/
def rawErrVars : Vars :=
  { name := .vStr "Candidate", userEmail := .vUndef, userPhone := .vUndef,
    hrName := .vStr "HR Manager", hrEmail := .vUndef,
    jobRole := .vStr "Software Engineer", company := .vStr "the company",
    companyPhone := .vUndef, education := .vStr "B.Tech in Computer Science",
    skills := .vStr "Java, Python, JavaScript, React, and Node.js",
    location := .vStr "Bangalore, India" }

/-- The fully-defaulted sanitized context produced by an empty structured
input to `generateEmail`. -/
def defaultedCtx : SafeCtx :=
  { name := "Candidate", userEmail := "example@email.com",
    userPhone := "+91-XXXXXXXXXX", hrName := "HR Manager",
    hrEmail := "hr@company.com", jobRole := "Software Engineer",
    company := "the company", companyPhone := "N/A",
    education := "B.Tech in Computer Science",
    skills := "Java, Python, JavaScript, React, and Node.js",
    location := "Bangalore, India" }

/-- A truthy string that sanitizes to the empty string: whitespace-only but
non-empty.  Such a value defeats the non-emptiness of the resolved
context. -/
def wsOnly : JSVal → Bool
  | .vStr s => s != "" && sanitizeStr s == ""
  | _ => false

/-!  Helper lemmas. -/

theorem length_dropWhileWs_le (l : List Char) :
    (l.dropWhile jsWs).length ≤ l.length := by
  induction l with
  | nil => simp
  | cons c t ih =>
    by_cases h : jsWs c
    · simp only [List.dropWhile, h]
      exact Nat.le_succ_of_le ih
    · simp [List.dropWhile, h]

theorem trimL_length_le (l : List Char) : (trimL l).length ≤ l.length := by
  unfold trimL
  rw [List.length_reverse]
  calc ((l.dropWhile jsWs).reverse.dropWhile jsWs).length
      ≤ (l.dropWhile jsWs).reverse.length := length_dropWhileWs_le _
    _ = (l.dropWhile jsWs).length := List.length_reverse _
    _ ≤ l.length := length_dropWhileWs_le _

theorem jsTrim_length_le (s : String) : (jsTrim s).length ≤ s.length :=
  trimL_length_le s.data

theorem strTake_length_le (s : String) (n : Nat) : (strTake s n).length ≤ n := by
  show (s.data.take n).length ≤ n
  simp [List.length_take]

theorem strLength_append (a b : String) : (a ++ b).length = a.length + b.length := by
  cases a with
  | mk la =>
    cases b with
    | mk lb =>
      show (String.mk (la ++ lb)).length = la.length + lb.length
      simp [String.length]

/-- The success-path subject of steps 4–5: at most 90 characters, and equal
to the trimmed 87-character prefix plus `"..."` whenever the sanitized model
subject exceeds 90 characters. -/
theorem subject_cap_core (ctx : SafeCtx) (s0 b0 : String) :
    (composeResult ctx (.ok (.vStr s0) (.vStr b0))).subject.length ≤ 90 ∧
      (90 < (sanitizeStr s0).length →
        (composeResult ctx (.ok (.vStr s0) (.vStr b0))).subject =
          jsTrim (strTake (sanitizeStr s0) 87) ++ "...") := by
  have hsub : (composeResult ctx (.ok (.vStr s0) (.vStr b0))).subject =
      if 90 < (sanitizeStr s0).length then jsTrim (strTake (sanitizeStr s0) 87) ++ "..."
      else sanitizeStr s0 := rfl
  rw [hsub]
  by_cases h : 90 < (sanitizeStr s0).length
  · rw [if_pos h]
    refine ⟨?_, fun _ => rfl⟩
    rw [strLength_append]
    have h1 : (jsTrim (strTake (sanitizeStr s0) 87)).length ≤ 87 :=
      le_trans (jsTrim_length_le _) (strTake_length_le _ _)
    have h2 : ("..." : String).length = 3 := rfl
    omega
  · rw [if_neg h]
    exact ⟨by omega, fun hc => absurd hc h⟩

theorem generateEmail_ok (input : GenInput) (ext : ExtractOutcome) (gen : GenOutcome)
    (r : GeneratedEmail) (h : generateEmail input ext gen = .ok r) :
    ∃ ctx : SafeCtx, r = composeResult ctx gen := by
  unfold generateEmail at h
  cases hres : resolveVars input ext with
  | error e => rw [hres] at h; exact absurd h (by simp)
  | ok vars =>
    rw [hres] at h
    refine ⟨makeSafe vars, ?_⟩
    injection h with h
    exact h.symm

theorem withDefault_jsOr (v : JSVal) (d dd : String) :
    withDefault (jsOr v (.vStr d)) dd = jsOr v (.vStr d) := by
  unfold jsOr
  by_cases h : truthy v = true
  · rw [if_pos h]
    cases v with
    | vStr s => rfl
    | vNum n => rfl
    | vBool b => rfl
    | vNull => rfl
    | vUndef => simp [truthy] at h
  · rw [if_neg h]
    rfl

theorem safeField_ne (v : JSVal) (d1 d2 : String) (h : wsOnly v = false)
    (h1 : sanitizeStr d1 ≠ "") (h2 : d2 ≠ "") :
    sanitizeText (jsOr v (.vStr d1)) d2 ≠ "" := by
  cases v with
  | vStr s =>
    by_cases hs : s = ""
    · subst hs
      exact h1
    · have ht : truthy (.vStr s) = true := by
        simp [truthy, hs]
      rw [show jsOr (.vStr s) (.vStr d1) = .vStr s from by simp [jsOr, ht]]
      show sanitizeStr s ≠ ""
      intro he
      rw [wsOnly] at h
      simp [hs, he] at h
  | vNum n =>
    by_cases hn : n = 0
    · subst hn
      exact h1
    · rw [show jsOr (.vNum n) (.vStr d1) = .vNum n from by simp [jsOr, truthy, hn]]
      exact h2
  | vBool b =>
    cases b with
    | false => exact h1
    | true => exact h2
  | vNull => exact h1
  | vUndef => exact h1

theorem safeHrEmail_ne (v w : JSVal) (h : wsOnly v = false) :
    sanitizeText (jsOr (jsOr v (.vStr "hr@company.com")) w) "hr@company.com" ≠ "" := by
  cases v with
  | vStr s =>
    by_cases hs : s = ""
    · subst hs
      show sanitizeStr "hr@company.com" ≠ ""
      decide
    · have ht : truthy (.vStr s) = true := by
        simp [truthy, hs]
      rw [show jsOr (.vStr s) (.vStr "hr@company.com") = .vStr s from by simp [jsOr, ht],
        show jsOr (.vStr s) w = .vStr s from by simp [jsOr, ht]]
      show sanitizeStr s ≠ ""
      intro he
      rw [wsOnly] at h
      simp [hs, he] at h
  | vNum n =>
    by_cases hn : n = 0
    · subst hn
      show sanitizeStr "hr@company.com" ≠ ""
      decide
    · rw [show jsOr (.vNum n) (.vStr "hr@company.com") = .vNum n from by
          simp [jsOr, truthy, hn],
        show jsOr (.vNum n) w = .vNum n from by simp [jsOr, truthy, hn]]
      show ("hr@company.com" : String) ≠ ""
      decide
  | vBool b =>
    cases b with
    | false =>
      show sanitizeStr "hr@company.com" ≠ ""
      decide
    | true =>
      show ("hr@company.com" : String) ≠ ""
      decide
  | vNull =>
    show sanitizeStr "hr@company.com" ≠ ""
    decide
  | vUndef =>
    show sanitizeStr "hr@company.com" ≠ ""
    decide

theorem jsOr_pos (v w : JSVal) (h : truthy v = true) : jsOr v w = v := by
  unfold jsOr; rw [if_pos h]

theorem jsOr_neg (v w : JSVal) (h : truthy v = false) : jsOr v w = w := by
  unfold jsOr; rw [if_neg (by simp [h])]

theorem composeResult_fail (ctx : SafeCtx) (g : GenOutcome) (hg : genFails g = true) :
    composeResult ctx g = fallbackEmail ctx := by
  cases g with
  | err => rfl
  | ok a b => cases a <;> cases b <;> first | rfl | simp [genFails] at hg

/-!  Claims. -/

/-- C1 (amended): whenever `generateEmail` returns through the successful
generation path, the returned subject has length at most 90, and whenever
the sanitized model subject exceeds 90 characters the returned subject is
that subject's first 87 characters, right-trimmed, with the ellipsis marker
`"..."` appended.  (As stated the claim is false: the fallback path returns
`Application for <jobRole> – <name>` with no length cap, see the
counterexample.) -/
theorem generateEmail_subject_cap (input : GenInput) (ext : ExtractOutcome)
    (s0 b0 : String) (r : GeneratedEmail)
    (h : generateEmail input ext (.ok (.vStr s0) (.vStr b0)) = .ok r) :
    r.subject.length ≤ 90 ∧
      (90 < (sanitizeStr s0).length →
        r.subject = jsTrim (strTake (sanitizeStr s0) 87) ++ "...") := by
  obtain ⟨ctx, rfl⟩ := generateEmail_ok _ _ _ _ h
  exact subject_cap_core ctx s0 b0

/-- C1 witness: a concrete successful-path run at a 95-character subject. -/
theorem generateEmail_subject_cap_w :
    (composeResult (makeSafe (destructureObj emptyObj))
        (GenOutcome.ok (.vStr subj95) (.vStr "x"))).subject.length ≤ 90 ∧
    (composeResult (makeSafe (destructureObj emptyObj))
        (GenOutcome.ok (.vStr subj95) (.vStr "x"))).subject =
      jsTrim (strTake (sanitizeStr subj95) 87) ++ "..." :=
  have h := generateEmail_subject_cap (.jobj emptyObj) .err subj95 "x"
    (composeResult (makeSafe (destructureObj emptyObj))
      (GenOutcome.ok (.vStr subj95) (.vStr "x"))) rfl
  ⟨h.1, h.2 (by decide)⟩

/-- C1 counterexample: with a 100-character job role and a failed generation
call, `generateEmail` returns a result whose subject is 128 characters long,
violating the claimed 90-character bound. -/
theorem generateEmail_subject_cap_cex :
    (generateEmail (.jobj longRoleObj) .err .err).map
      (fun r => decide (r.subject.length ≤ 90)) = .ok false := rfl

/-- C2 (amended): for every structured request body none of whose supplied
values is a truthy whitespace-only string, the nine resolved context fields
other than `userPhone` and `companyPhone` are non-empty when the generation
prompt is built; `userPhone` and `companyPhone` resolve to the empty string
whenever they are not supplied (the route defaults them to `""`, which
`sanitizeText` passes through).  (As stated the claim is false: see the
counterexample.) -/
theorem resolvedContext_nonempty (o : ReqObj)
    (h1 : wsOnly o.name = false) (h2 : wsOnly o.hrName = false)
    (h3 : wsOnly o.hrEmail = false) (h4 : wsOnly o.jobRole = false)
    (h5 : wsOnly o.company = false) (h6 : wsOnly o.userEmail = false)
    (h7 : wsOnly o.education = false) (h8 : wsOnly o.skills = false)
    (h9 : wsOnly o.location = false) :
    (makeSafe (destructureObj (normalizeStructured o))).name ≠ "" ∧
    (makeSafe (destructureObj (normalizeStructured o))).hrName ≠ "" ∧
    (makeSafe (destructureObj (normalizeStructured o))).hrEmail ≠ "" ∧
    (makeSafe (destructureObj (normalizeStructured o))).jobRole ≠ "" ∧
    (makeSafe (destructureObj (normalizeStructured o))).company ≠ "" ∧
    (makeSafe (destructureObj (normalizeStructured o))).userEmail ≠ "" ∧
    (makeSafe (destructureObj (normalizeStructured o))).education ≠ "" ∧
    (makeSafe (destructureObj (normalizeStructured o))).skills ≠ "" ∧
    (makeSafe (destructureObj (normalizeStructured o))).location ≠ "" ∧
    (o.userPhone = .vUndef →
      (makeSafe (destructureObj (normalizeStructured o))).userPhone = "") ∧
    (o.companyPhone = .vUndef →
      (makeSafe (destructureObj (normalizeStructured o))).companyPhone = "") := by
  refine ⟨?_, ?_, ?_, ?_, ?_, ?_, ?_, ?_, ?_, ?_, ?_⟩
  · exact safeField_ne o.name "Candidate" "Candidate" h1 (by decide) (by decide)
  · show sanitizeText (withDefault (jsOr o.hrName (.vStr "HR")) "HR Manager") "HR Manager" ≠ ""
    rw [withDefault_jsOr]
    exact safeField_ne o.hrName "HR" "HR Manager" h2 (by decide) (by decide)
  · exact safeHrEmail_ne o.hrEmail _ h3
  · exact safeField_ne o.jobRole "Software Engineer" "Software Engineer" h4 (by decide) (by decide)
  · exact safeField_ne o.company "the company" "the company" h5 (by decide) (by decide)
  · exact safeField_ne o.userEmail "candidate@email.com" "example@email.com" h6
      (by decide) (by decide)
  · show sanitizeText (withDefault (jsOr o.education (.vStr "B.Tech in Computer Science"))
        "B.Tech in Computer Science") "B.Tech in Computer Science" ≠ ""
    rw [withDefault_jsOr]
    exact safeField_ne o.education "B.Tech in Computer Science" "B.Tech in Computer Science" h7
      (by decide) (by decide)
  · show sanitizeText (withDefault (jsOr o.skills (.vStr "JavaScript, React, Node.js"))
        "Java, Python, JavaScript, React, and Node.js")
        "Java, Python, JavaScript, React, and Node.js" ≠ ""
    rw [withDefault_jsOr]
    exact safeField_ne o.skills "JavaScript, React, Node.js"
      "Java, Python, JavaScript, React, and Node.js" h8 (by decide) (by decide)
  · show sanitizeText (withDefault (jsOr o.location (.vStr "India")) "Bangalore, India")
        "India" ≠ ""
    rw [withDefault_jsOr]
    exact safeField_ne o.location "India" "India" h9 (by decide) (by decide)
  · intro hp
    show sanitizeText (jsOr o.userPhone (.vStr "")) "+91-XXXXXXXXXX" = ""
    rw [hp]
    rfl
  · intro hp
    show sanitizeText (jsOr o.companyPhone (.vStr "")) "N/A" = ""
    rw [hp]
    rfl

/-- C2 witness: the empty structured request. -/
theorem resolvedContext_nonempty_w :
    (makeSafe (destructureObj (normalizeStructured {}))).name ≠ "" ∧
    (makeSafe (destructureObj (normalizeStructured {}))).hrName ≠ "" ∧
    (makeSafe (destructureObj (normalizeStructured {}))).hrEmail ≠ "" ∧
    (makeSafe (destructureObj (normalizeStructured {}))).jobRole ≠ "" ∧
    (makeSafe (destructureObj (normalizeStructured {}))).company ≠ "" ∧
    (makeSafe (destructureObj (normalizeStructured {}))).userEmail ≠ "" ∧
    (makeSafe (destructureObj (normalizeStructured {}))).education ≠ "" ∧
    (makeSafe (destructureObj (normalizeStructured {}))).skills ≠ "" ∧
    (makeSafe (destructureObj (normalizeStructured {}))).location ≠ "" ∧
    (ReqObj.userPhone {} = .vUndef →
      (makeSafe (destructureObj (normalizeStructured {}))).userPhone = "") ∧
    (ReqObj.companyPhone {} = .vUndef →
      (makeSafe (destructureObj (normalizeStructured {}))).companyPhone = "") :=
  resolvedContext_nonempty {} rfl rfl rfl rfl rfl rfl rfl rfl rfl

/-- C2 counterexample: the empty structured request is accepted, yet at
prompt-construction time `userPhone` and `companyPhone` are empty strings;
a whitespace-only supplied `company` also resolves to the empty string. -/
theorem resolvedContext_nonempty_cex :
    (makeSafe (destructureObj (normalizeStructured {}))).userPhone = "" ∧
    (makeSafe (destructureObj (normalizeStructured {}))).companyPhone = "" ∧
    (makeSafe (destructureObj (normalizeStructured { company := .vStr "   " }))).company = "" :=
  ⟨rfl, rfl, rfl⟩

/-- C3 (amended): the Asha scenario with a failed generation call yields a
success response with subject `"Application for Backend Developer – Asha"`
and a body containing `"Dear HR,"`, `"Acme"` and `"asha@x.com"`.  (The route
defaults `hrName` to `"HR"`, so the greeting is `"Dear HR,"`, not the
claimed `"Dear HR Manager,"` — see the counterexample.) -/
theorem ashaScenario :
    (handleGenerate (.robj ashaReq) .err .err).map
      (fun r => (r.generated.subject,
        containsSub "Dear HR," r.generated.body,
        containsSub "Acme" r.generated.body,
        containsSub "asha@x.com" r.generated.body)) =
      .ok ("Application for Backend Developer – Asha", true, true, true) := rfl

/-- C3 counterexample: the body of that same response does not contain the
substring `"Dear HR Manager,"`. -/
theorem ashaScenario_cex :
    (handleGenerate (.robj ashaReq) .err .err).map
      (fun r => containsSub "Dear HR Manager," r.generated.body) = .ok false := rfl

/-- C4 (amended): for every raw-string input, on any failure of the
extraction phase no error is surfaced: `name`, `jobRole` and `company` are
set to `"Candidate"`, `"Software Engineer"` and `"the company"`, but
`location` keeps the destructuring default `"Bangalore, India"` (the
`catch` block's `location ||= "India"` never fires because the variable is
already truthy), and processing continues to sanitization and generation.
(As stated — `location` set to `"India"` — the claim is false, see the
counterexample.) -/
theorem rawErrDefaults (s : String) (gen : GenOutcome) :
    resolveVars (.jstr s) .err = .ok rawErrVars ∧
    generateEmail (.jstr s) .err gen = .ok (composeResult (makeSafe rawErrVars) gen) :=
  ⟨rfl, rfl⟩

/-- C4 counterexample: on a concrete raw-string input with a failed
extraction call the resolved `location` is `"Bangalore, India"`, not the
claimed per-field default `"India"`. -/
theorem rawErrDefaults_cex :
    (resolveVars (.jstr "Apply for a role at Acme") .err).map (fun v => v.location) =
      .ok (.vStr "Bangalore, India") ∧
    JSVal.vStr "Bangalore, India" ≠ .vStr "India" :=
  ⟨rfl, by decide⟩

/-- C5 (amended): for every structured request payload, each resolved field
is the payload's value exactly when that value is truthy, and the field's
documented default exactly when the value is falsy (absent, empty string,
`null`, `false`, or `0`); a truthy non-string value is passed through
unchanged rather than defaulted.  (As stated — defaulting whenever the value
is not a string — the claim is false, see the counterexample.) -/
theorem normalizeStructured_fields (o : ReqObj) :
    ((truthy o.name = true → (normalizeStructured o).name = o.name) ∧
      (truthy o.name = false → (normalizeStructured o).name = .vStr "Candidate")) ∧
    ((truthy o.hrName = true → (normalizeStructured o).hrName = o.hrName) ∧
      (truthy o.hrName = false → (normalizeStructured o).hrName = .vStr "HR")) ∧
    ((truthy o.hrEmail = true → (normalizeStructured o).hrEmail = o.hrEmail) ∧
      (truthy o.hrEmail = false → (normalizeStructured o).hrEmail = .vStr "hr@company.com")) ∧
    ((truthy o.jobRole = true → (normalizeStructured o).jobRole = o.jobRole) ∧
      (truthy o.jobRole = false → (normalizeStructured o).jobRole = .vStr "Software Engineer")) ∧
    ((truthy o.company = true → (normalizeStructured o).company = o.company) ∧
      (truthy o.company = false → (normalizeStructured o).company = .vStr "the company")) ∧
    ((truthy o.companyPhone = true → (normalizeStructured o).companyPhone = o.companyPhone) ∧
      (truthy o.companyPhone = false → (normalizeStructured o).companyPhone = .vStr "")) ∧
    ((truthy o.userEmail = true → (normalizeStructured o).userEmail = o.userEmail) ∧
      (truthy o.userEmail = false →
        (normalizeStructured o).userEmail = .vStr "candidate@email.com")) ∧
    ((truthy o.userPhone = true → (normalizeStructured o).userPhone = o.userPhone) ∧
      (truthy o.userPhone = false → (normalizeStructured o).userPhone = .vStr "")) ∧
    ((truthy o.education = true → (normalizeStructured o).education = o.education) ∧
      (truthy o.education = false →
        (normalizeStructured o).education = .vStr "B.Tech in Computer Science")) ∧
    ((truthy o.skills = true → (normalizeStructured o).skills = o.skills) ∧
      (truthy o.skills = false →
        (normalizeStructured o).skills = .vStr "JavaScript, React, Node.js")) ∧
    ((truthy o.location = true → (normalizeStructured o).location = o.location) ∧
      (truthy o.location = false → (normalizeStructured o).location = .vStr "India")) :=
  ⟨⟨fun h => jsOr_pos _ _ h, fun h => jsOr_neg _ _ h⟩,
    ⟨fun h => jsOr_pos _ _ h, fun h => jsOr_neg _ _ h⟩,
    ⟨fun h => jsOr_pos _ _ h, fun h => jsOr_neg _ _ h⟩,
    ⟨fun h => jsOr_pos _ _ h, fun h => jsOr_neg _ _ h⟩,
    ⟨fun h => jsOr_pos _ _ h, fun h => jsOr_neg _ _ h⟩,
    ⟨fun h => jsOr_pos _ _ h, fun h => jsOr_neg _ _ h⟩,
    ⟨fun h => jsOr_pos _ _ h, fun h => jsOr_neg _ _ h⟩,
    ⟨fun h => jsOr_pos _ _ h, fun h => jsOr_neg _ _ h⟩,
    ⟨fun h => jsOr_pos _ _ h, fun h => jsOr_neg _ _ h⟩,
    ⟨fun h => jsOr_pos _ _ h, fun h => jsOr_neg _ _ h⟩,
    ⟨fun h => jsOr_pos _ _ h, fun h => jsOr_neg _ _ h⟩⟩

/-- C5 witness: a supplied truthy value is kept, an absent one is
defaulted. -/
theorem normalizeStructured_fields_w :
    (normalizeStructured { name := .vStr "Asha" }).name = .vStr "Asha" ∧
    (normalizeStructured {}).name = .vStr "Candidate" :=
  ⟨(normalizeStructured_fields { name := .vStr "Asha" }).1.1 rfl,
    (normalizeStructured_fields {}).1.2 rfl⟩

/-- C5 counterexample: the non-string truthy payload value `42` for
`jobRole` is passed through unchanged instead of being replaced by the
documented default. -/
theorem normalizeStructured_fields_cex :
    (normalizeStructured { jobRole := .vNum 42 }).jobRole = .vNum 42 ∧
    JSVal.vNum 42 ≠ .vStr "Software Engineer" :=
  ⟨rfl, by decide⟩

/-- C6 (amended): the free-text input
`"Apply for backend developer at Initech"` resolves `jobRole` to
`"developer"` — the role regex captures only the matched keyword, not the
two-word phrase — and `company` to `"Initech"`.  (As stated —
`jobRole = "backend developer"` — the claim is false, see the
counterexample.) -/
theorem freeTextInitech :
    (normalizeRequest (.robj initechReq)).map (fun o => (o.jobRole, o.company)) =
      .ok (.vStr "developer", .vStr "Initech") := rfl

/-- C6 counterexample: the resolved `jobRole` is `"developer"`, which does
not equal `"backend developer"` under any casing. -/
theorem freeTextInitech_cex :
    (normalizeRequest (.robj initechReq)).map (fun o => o.jobRole) =
      .ok (.vStr "developer") ∧
    lowerStr "developer" ≠ lowerStr "backend developer" :=
  ⟨rfl, by decide⟩

/-- C7 (amended): when `hrEmail` is not supplied the HR email used by the
Composer is the sanitized `deriveHrEmail(company)`; for a non-empty string
company that is `"hr@" ++ <lowercased, whitespace-stripped company> ++
".com"` (so `"Example Corp"` gives `"hr@examplecorp.com"`), while an
absent, non-string, or *empty-string* company gives the fixed placeholder
`"hr@company.com"`.  (As stated the claim is false for the empty-string
company, see the counterexample.) -/
theorem deriveHrEmail_spec (s : String) (hs : s ≠ "") (v : JSVal)
    (hv : ∀ t : String, v ≠ .vStr t) (vars : Vars) (hn : vars.hrEmail = .vUndef) :
    deriveHrEmail (.vStr s) = "hr@" ++ stripLower s ++ ".com" ∧
    deriveHrEmail v = "hr@company.com" ∧
    deriveHrEmail (.vStr "") = "hr@company.com" ∧
    (makeSafe vars).hrEmail = sanitizeStr (deriveHrEmail vars.company) ∧
    deriveHrEmail (.vStr "Example Corp") = "hr@examplecorp.com" := by
  refine ⟨?_, ?_, rfl, ?_, by decide⟩
  · show (if s = "" then "hr@company.com" else "hr@" ++ stripLower s ++ ".com") = _
    rw [if_neg hs]
  · cases v with
    | vStr t => exact absurd rfl (hv t)
    | vNum n => rfl
    | vBool b => rfl
    | vNull => rfl
    | vUndef => rfl
  · show sanitizeText (jsOr vars.hrEmail (.vStr (deriveHrEmail vars.company)))
      "hr@company.com" = _
    rw [hn]
    rfl

/-- C7 witness: concrete instantiation at `"Example Corp"`, a `null`
company, and a context with no supplied HR email. -/
theorem deriveHrEmail_spec_w :
    deriveHrEmail (.vStr "Example Corp") = "hr@" ++ stripLower "Example Corp" ++ ".com" ∧
    deriveHrEmail .vNull = "hr@company.com" ∧
    deriveHrEmail (.vStr "") = "hr@company.com" ∧
    (makeSafe (destructureObj emptyObj)).hrEmail =
      sanitizeStr (deriveHrEmail (destructureObj emptyObj).company) ∧
    deriveHrEmail (.vStr "Example Corp") = "hr@examplecorp.com" :=
  deriveHrEmail_spec "Example Corp" (by decide) .vNull (fun t h => nomatch h)
    (destructureObj emptyObj) rfl

/-- C7 counterexample: for the present-but-empty string company the derived
HR email is the placeholder, not the `"hr@" ++ ... ++ ".com"` formula, which
would give `"hr@.com"`. -/
theorem deriveHrEmail_cex :
    deriveHrEmail (.vStr "") = "hr@company.com" ∧
    "hr@" ++ stripLower "" ++ ".com" = "hr@.com" ∧
    ("hr@company.com" : String) ≠ "hr@.com" :=
  ⟨rfl, by decide, by decide⟩

/-- C8: the fallback is deterministic in the resolved context alone — two
runs of `generateEmail` on the same input and extraction outcome whose
generation calls both fail (in any way) return identical results. -/
theorem fallback_deterministic (input : GenInput) (ext : ExtractOutcome)
    (g1 g2 : GenOutcome) (h1 : genFails g1 = true) (h2 : genFails g2 = true) :
    generateEmail input ext g1 = generateEmail input ext g2 := by
  unfold generateEmail
  cases resolveVars input ext with
  | error e => rfl
  | ok vars => simp only [composeResult_fail _ _ h1, composeResult_fail _ _ h2]

/-- C8 witness: a thrown generation call and a schema-violating one (a
non-string subject) give byte-identical results on a concrete context. -/
theorem fallback_deterministic_w :
    generateEmail (.jobj emptyObj) .err .err =
      generateEmail (.jobj emptyObj) .err (.ok .vNull (.vStr "x")) :=
  fallback_deterministic (.jobj emptyObj) .err .err (.ok .vNull (.vStr "x")) rfl rfl

/-- C9 (amended): a sanitized model subject of exactly 95 characters is
returned as its first 87 characters, right-trimmed, with `"..."` appended —
total length at most 90, and 90 exactly when the 87-character prefix ends in
a non-space.  (As stated — total length exactly 90 — the claim is false,
see the counterexample.) -/
theorem subject_trunc95 (ctx : SafeCtx) (s0 b0 : String)
    (h : (sanitizeStr s0).length = 95) :
    (composeResult ctx (.ok (.vStr s0) (.vStr b0))).subject =
      jsTrim (strTake (sanitizeStr s0) 87) ++ "..." ∧
    (composeResult ctx (.ok (.vStr s0) (.vStr b0))).subject.length ≤ 90 :=
  have hc : 90 < (sanitizeStr s0).length := by omega
  ⟨(subject_cap_core ctx s0 b0).2 hc, (subject_cap_core ctx s0 b0).1⟩

/-- C9 witness: a 95-character subject with no internal whitespace, where
the result has length exactly 90. -/
theorem subject_trunc95_w :
    (composeResult {} (GenOutcome.ok (.vStr subj95) (.vStr "x"))).subject =
      jsTrim (strTake (sanitizeStr subj95) 87) ++ "..." ∧
    (composeResult {} (GenOutcome.ok (.vStr subj95) (.vStr "x"))).subject.length ≤ 90 :=
  subject_trunc95 {} subj95 "x" (by decide)

/-- C9 counterexample: a sanitized 95-character subject whose 87th character
is a space — `slice(0, 87).trim()` drops that space, so the returned subject
has length 89, not the claimed 90. -/
theorem subject_trunc95_cex :
    sanitizeStr subj95sp = subj95sp ∧ subj95sp.length = 95 ∧
    (composeResult {} (GenOutcome.ok (.vStr subj95sp) (.vStr "x"))).subject.length ≠ 90 :=
  ⟨by decide, by decide, by decide⟩

/-- C10: `generateEmail(null)` throws a `TypeError` at the destructuring
(`null.rawText`), before any extraction, generation, or fallback work, for
every outcome of the external calls; `undefined`, the only other nullish
input, is instead processed as an empty structured context — the fully
defaulted sanitized context — and on a failed generation call yields the
fully-defaulted fallback email. -/
theorem nullInput_rejects (ext : ExtractOutcome) (gen : GenOutcome) :
    generateEmail .jnull ext gen = .error .typeError ∧
    generateEmail .jundef ext gen = .ok (composeResult defaultedCtx gen) ∧
    generateEmail .jundef ext .err = .ok (fallbackEmail defaultedCtx) := by
  have hctx : makeSafe (destructureObj emptyObj) = defaultedCtx := by decide
  refine ⟨rfl, ?_, ?_⟩
  · show Except.ok (composeResult (makeSafe (destructureObj emptyObj)) gen) =
      Except.ok (composeResult defaultedCtx gen)
    rw [hctx]
  · show Except.ok (composeResult (makeSafe (destructureObj emptyObj)) .err) =
      Except.ok (fallbackEmail defaultedCtx)
    rw [hctx]
    rfl

end EmailGen
